import Mathlib

/-!
Shallow embedding of `src/resumebot.py` (ResumeBot): the text cleaner, the
question generator, the answer evaluator, and the Streamlit session state
machine.  External generative-model calls are modelled as an oracle function
from prompt strings to response strings; everything else is translated
directly from the source.
-/

namespace ResumeBot

/-- Characters treated as whitespace by Python `str.strip()` and by the regex
class `\s` (Unicode whitespace). -/
def pyIsSpace (c : Char) : Bool :=
  let n := c.toNat
  (9 ≤ n && n ≤ 13) || n == 32 || (28 ≤ n && n ≤ 31) || n == 0x85 || n == 0xa0 ||
  n == 0x1680 || (0x2000 ≤ n && n ≤ 0x200a) || n == 0x2028 || n == 0x2029 ||
  n == 0x202f || n == 0x205f || n == 0x3000

/-- The character class `[\-\•\d\.\)\s]` of the regex on line 43 of
`src/resumebot.py` (digits restricted to ASCII). -/
def isBulletChar (c : Char) : Bool :=
  c == '-' || c == '•' || c.isDigit || c == '.' || c == ')' || pyIsSpace c

/-- Python `str.strip()` on a list of characters: drop whitespace from both
ends. -/
def pyStripList (l : List Char) : List Char :=
  (l.dropWhile pyIsSpace).rdropWhile pyIsSpace

/-- Python `str.strip()` on strings. -/
def pyStrip (s : String) : String :=
  (pyStripList s.data).asString

/-- One iteration of the loop body of `clean_questions` (lines 41-45):
`q.strip()`, then `re.sub(r"^[\-\•\d\.\)\s]+", "", q)` (which removes the
leading run of bullet-class characters), keep `q.strip()` when `len(q) > 5`. -/
def cleanLine (q : String) : Option String :=
  let q1 := pyStripList q.data
  let q2 := q1.dropWhile isBulletChar
  if 5 < q2.length then some (pyStripList q2).asString else none

/-- `clean_questions` (lines 39-46). -/
def clean_questions (raw_qs : List String) : List String :=
  raw_qs.filterMap cleanLine

/-- The role prompt (line 52). -/
def role_prompt (role : String) : String :=
  "Generate 5 interview questions for the role: " ++ role ++ "."

/-- The resume prompt (line 53); `resume_text[:3000]` keeps the first 3000
characters. -/
def resume_prompt (resume_text : String) : String :=
  "Resume:\n" ++ resume_text.take 3000 ++
    "\n\nGenerate 5 interview questions based on this resume."

/-- `generate_questions` (lines 48-60), with the external model as an oracle
from prompts to response texts. -/
def generate_questions (model : String → String) (role resume_text : String) :
    List String :=
  let role_response := model (role_prompt role)
  let resume_response := model (resume_prompt resume_text)
  let role_qs := clean_questions (role_response.splitOn "\n")
  let resume_qs := clean_questions (resume_response.splitOn "\n")
  (role_qs ++ resume_qs).take 10

/-- `pat` is an initial segment of the second list. -/
def matchesAt : List Char → List Char → Bool
  | [], _ => true
  | _ :: _, [] => false
  | p :: ps, c :: cs => p == c && matchesAt ps cs

/-- Leftmost occurrence of the literal `pat`: the characters after it, or
`none` when `pat` does not occur. -/
def searchTail (pat : List Char) : List Char → Option (List Char)
  | [] => if matchesAt pat [] then some [] else none
  | c :: cs =>
    if matchesAt pat (c :: cs) then some ((c :: cs).drop pat.length)
    else searchTail pat cs

/-- `re.search(r"Feedback:\s*(.*)", response)` followed by
`.group(1).strip()` (lines 76 and 79): after the first `Feedback:`, the
greedy `\s*` skips the whitespace run (newlines included), `(.*)` captures up
to the end of that line, and the capture is stripped. -/
def feedbackSearch (response : String) : Option String :=
  match searchTail "Feedback:".data response.data with
  | none => none
  | some rest =>
    some (pyStripList ((rest.dropWhile pyIsSpace).takeWhile
      (fun c => c != '\n'))).asString

/-- Value of a digit run, as Python `int` of the matched group. -/
def natOfDigits (ds : List Char) : Nat :=
  ds.foldl (fun n c => 10 * n + (c.toNat - 48)) 0

/-- `re.search(r"Score:\s*(\d+)", response)` (line 77): the first occurrence
of `Score:` that is followed, after a whitespace run, by at least one digit;
yields the value of that maximal digit run (digits restricted to ASCII). -/
def scoreSearchAux : List Char → Option Nat
  | [] => none
  | c :: cs =>
    if matchesAt "Score:".data (c :: cs) then
      let digits := (((c :: cs).drop 6).dropWhile pyIsSpace).takeWhile Char.isDigit
      if digits.isEmpty then scoreSearchAux cs else some (natOfDigits digits)
    else scoreSearchAux cs

/-- Score extraction on strings. -/
def scoreSearch (response : String) : Option Nat :=
  scoreSearchAux response.data

/-- U+0027. -/
def apostropheChar : Char := Char.ofNat 39

/-- The per-pair evaluation prompt (lines 69-74). -/
def eval_prompt (q a : String) : String :=
  "Evaluate the candidate" ++ String.singleton apostropheChar ++ "s answer:\n\n" ++
  "Question: " ++ q ++ "\nAnswer: " ++ a ++ "\n\n" ++
  "Provide feedback and a score out of 10. Format:\n" ++
  "Feedback: <feedback>\nScore: <score>/10"

/-- Lines 76-80 applied to one model response: feedback defaulting to the
fixed placeholder, score defaulting to 0. -/
def parse_eval_response (response : String) : String × Nat :=
  let fb := match feedbackSearch response with
    | some f => f
    | none => "No feedback provided."
  let sc := match scoreSearch response with
    | some n => n
    | none => 0
  (fb, sc)

/-- `evaluate_answers` (lines 62-84), with the external model as an oracle;
the loop runs over `zip(questions, answers)` and appends to the two result
lists in order. -/
def evaluate_answers (model : String → String) (questions answers : List String) :
    List String × List Nat :=
  let results := (questions.zip answers).map
    (fun p => parse_eval_response (model (eval_prompt p.1 p.2)))
  (results.map Prod.fst, results.map Prod.snd)

/-- The Streamlit session keys (lines 30-32).  `question_index` is
initialised and reset to Python `False`, which equals the integer 0 and is
only ever used as an integer; it is modelled as 0. -/
structure SessionState where
  question_index : Nat
  questions : List String
  user_answers : List String
  feedback : List String
  scores : List Nat
  user_details : List (String × String)
  ready : Bool
  deriving DecidableEq

/-- The state produced by the session-state init loop (lines 30-32). -/
def initSession : SessionState :=
  { question_index := 0, questions := [], user_answers := [], feedback := [],
    scores := [], user_details := [], ready := false }

/-- The Generate Questions handler (lines 115-126) once `generate_questions`
has returned `qs`. -/
def startInterview (s : SessionState) (qs : List String)
    (name email experience role : String) : SessionState :=
  { s with questions := qs, question_index := 0,
           user_answers := List.replicate qs.length "",
           user_details := [("Name", name), ("Email", email),
                            ("Experience", experience), ("Role Applied", role)],
           ready := true, feedback := [], scores := [] }

/-- The Next button handler (lines 141-152): the button exists only while
`question_index < len(questions)`; an answer whose `strip()` is empty is
rejected with a warning and no state change; otherwise the stripped answer is
stored at the cursor and the cursor advances by one.  Returns the new state
and the warning message, if any. -/
def submitAnswer (s : SessionState) (answer : String) :
    SessionState × Option String :=
  if s.question_index < s.questions.length then
    if pyStrip answer ≠ "" then
      ({ s with
          user_answers := s.user_answers.set s.question_index (pyStrip answer),
          question_index := s.question_index + 1 }, none)
    else (s, some "❗Please enter your answer before continuing.")
  else (s, none)

/-- The Restart Interview handler (lines 187-189); it runs the same
assignment loop as the init block, so it restores `initSession`. -/
def resetSession (_ : SessionState) : SessionState := initSession

/-- One no-interaction run of the main body (lines 132-185).  When `ready`,
the Interview tab code always runs first and `st.progress(idx / total_qs)`
(line 139) raises `ZeroDivisionError` when there are no questions, aborting
the run before the Results tab executes; otherwise the Results tab invokes
the evaluator exactly when `feedback` is empty and no answer equals `""`
(line 157).  Returns the new state and whether `evaluate_answers` was
invoked. -/
def viewResults (model : String → String) (s : SessionState) :
    Except Unit (SessionState × Bool) :=
  if s.ready then
    if s.questions.length = 0 then Except.error ()
    else if s.feedback = [] ∧ s.user_answers.count "" = 0 then
      let r := evaluate_answers model s.questions s.user_answers
      Except.ok ({ s with feedback := r.1, scores := r.2 }, true)
    else Except.ok (s, false)
  else Except.ok (s, false)

/-- Line 168: `total = sum(st.session_state.scores)`. -/
def totalScore (s : SessionState) : Nat := s.scores.sum

/-- Line 169: `avg = total / len(st.session_state.questions)` (Python true
division, modelled over the rationals). -/
def averageScore (s : SessionState) : ℚ :=
  (totalScore s : ℚ) / (s.questions.length : ℚ)

/-- The `f"{avg:.1f}"` rendering of line 171 as a rational rounded to one
decimal place (binary floating-point tie behaviour is not modelled). -/
def oneDecimal (x : ℚ) : ℚ := ((round (x * 10) : ℤ) : ℚ) / 10

/-- The Text Cleaner per-line rule as the spec states it (spec section 4.1):
trim whitespace; strip any leading run of characters drawn from the bullet
class; discard if the resulting length is at most 5; otherwise keep the
trimmed line. -/
def cleanLineSpec (line : String) : Option String :=
  let t := pyStrip line
  let stripped := (t.data.dropWhile isBulletChar).asString
  if stripped.length ≤ 5 then none else some (pyStrip stripped)

/-! Helper lemmas about the character-level cleaning operations. -/

lemma pyIsSpace_isBulletChar {c : Char} (h : pyIsSpace c = true) :
    isBulletChar c = true := by
  simp [isBulletChar, h]

lemma dropWhile_head?_not (p : Char → Bool) (l : List Char) {c : Char}
    (h : (l.dropWhile p).head? = some c) : p c = false := by
  induction l with
  | nil => simp [List.dropWhile] at h
  | cons a as ih =>
    rw [List.dropWhile_cons] at h
    split at h
    · exact ih h
    · next hp =>
      simp only [List.head?_cons, Option.some.injEq] at h
      subst h
      simpa using hp

lemma getLast?_dropWhile (p : Char → Bool) (l : List Char)
    (h : l.dropWhile p ≠ []) : (l.dropWhile p).getLast? = l.getLast? := by
  induction l with
  | nil => simp at h
  | cons a as ih =>
    rw [List.dropWhile_cons] at h ⊢
    by_cases hp : p a = true
    · rw [if_pos hp] at h ⊢
      have hne : as ≠ [] := by
        intro hnil
        rw [hnil] at h
        simp [List.dropWhile] at h
      obtain ⟨b, bs, rfl⟩ := List.exists_cons_of_ne_nil hne
      rw [List.getLast?_cons_cons]
      exact ih h
    · rw [if_neg hp]

lemma rdropWhile_getLast?_not (p : Char → Bool) (l : List Char) {c : Char}
    (h : (l.rdropWhile p).getLast? = some c) : p c = false := by
  rw [List.rdropWhile, List.getLast?_reverse] at h
  exact dropWhile_head?_not p l.reverse h

lemma rdropWhile_eq_self_of_getLast? (p : Char → Bool) (l : List Char)
    (h : ∀ c, l.getLast? = some c → p c = false) : l.rdropWhile p = l := by
  rw [List.rdropWhile_eq_self_iff]
  intro hl
  have := h (l.getLast hl) (List.getLast?_eq_getLast l hl)
  simp [this]

lemma dropWhile_eq_self_of_head? (p : Char → Bool) (l : List Char)
    (h : ∀ c, l.head? = some c → p c = false) : l.dropWhile p = l := by
  cases l with
  | nil => rfl
  | cons a as =>
    rw [List.dropWhile_cons, if_neg]
    simp [h a rfl]

lemma filterMap_of_mem_some {f : String → Option String} {l : List String}
    (h : ∀ x ∈ l, f x = some x) : l.filterMap f = l := by
  induction l with
  | nil => rfl
  | cons a as ih =>
    rw [List.filterMap_cons, h a (List.mem_cons_self a as),
      ih fun x hx => h x (List.mem_cons_of_mem a hx)]

/-- Any line kept by `cleanLine` is a fixed point of `cleanLine`: it is
stripped, longer than 5 characters, and no longer starts with a character of
the bullet class. -/
lemma cleanLine_fix {q o : String} (h : cleanLine q = some o) :
    cleanLine o = some o := by
  unfold cleanLine at h
  set q1 := pyStripList q.data with hq1
  set q2 := q1.dropWhile isBulletChar with hq2
  by_cases h5 : 5 < q2.length
  · rw [if_pos h5, Option.some.injEq] at h
    have hq2ne : q2 ≠ [] := by
      intro hnil
      rw [hnil] at h5
      simp at h5
    have hhead : ∀ c, q2.head? = some c → isBulletChar c = false := by
      intro c hc
      rw [hq2] at hc
      exact dropWhile_head?_not isBulletChar q1 hc
    have hdw : q2.dropWhile pyIsSpace = q2 := by
      refine dropWhile_eq_self_of_head? _ _ fun c hc => ?_
      by_contra hsp
      have : pyIsSpace c = true := by
        cases hb : pyIsSpace c
        · exact absurd hb hsp
        · rfl
      exact absurd (pyIsSpace_isBulletChar this) (by simp [hhead c hc])
    have hlast : ∀ c, q2.getLast? = some c → pyIsSpace c = false := by
      intro c hc
      have hq1last : q1.getLast? = some c := by
        rw [← getLast?_dropWhile isBulletChar q1 (hq2 ▸ hq2ne), ← hq2]
        exact hc
      rw [hq1, pyStripList] at hq1last
      exact rdropWhile_getLast?_not pyIsSpace _ hq1last
    have hps : pyStripList q2 = q2 := by
      rw [pyStripList, hdw]
      exact rdropWhile_eq_self_of_getLast? _ _ hlast
    have ho : o = q2.asString := by rw [← h, hps]
    have hod : o.data = q2 := by
      rw [ho]
      rfl
    unfold cleanLine
    show (if 5 < ((pyStripList o.data).dropWhile isBulletChar).length then
      some (pyStripList ((pyStripList o.data).dropWhile isBulletChar)).asString
      else none) = some o
    rw [hod, hps, dropWhile_eq_self_of_head? _ _ fun c hc => hhead c hc,
      if_pos h5, hps, ← ho]
  · rw [if_neg h5] at h
    exact absurd h (by simp)

lemma cleanLine_eq_spec (q : String) : cleanLine q = cleanLineSpec q := by
  unfold cleanLine cleanLineSpec
  show (if 5 < ((pyStripList q.data).dropWhile isBulletChar).length then
      some (pyStripList ((pyStripList q.data).dropWhile isBulletChar)).asString
      else none) =
    (if ((pyStripList q.data).dropWhile isBulletChar).length ≤ 5 then none
      else some (pyStripList ((pyStripList q.data).dropWhile isBulletChar)).asString)
  by_cases h : ((pyStripList q.data).dropWhile isBulletChar).length ≤ 5
  · rw [if_neg (by omega), if_pos h]
  · rw [if_pos (by omega), if_neg h]

/-- Claim C10: `clean_questions` is idempotent: every kept line is stripped,
longer than 5 characters, and no longer begins with a bullet-class character,
so a second pass keeps every line unchanged. -/
theorem c10_clean_questions_idempotent (ls : List String) :
    clean_questions (clean_questions ls) = clean_questions ls := by
  refine filterMap_of_mem_some fun o ho => ?_
  rw [clean_questions, List.mem_filterMap] at ho
  obtain ⟨q, _, hq⟩ := ho
  exact cleanLine_fix hq

/-- Claim C2: the Text Cleaner trims each line, strips the leading run of
bullet-class characters, discards the line when the result has length at most
5 and otherwise keeps the trimmed result, preserving input order with no
uniqueness constraint (it is a total `filterMap`); in particular the lines
["1. What is REST?", "- Explain caching.", ""] clean to
["What is REST?", "Explain caching."]. -/
theorem c2_clean_questions_behaviour :
    clean_questions ["1. What is REST?", "- Explain caching.", ""] =
      ["What is REST?", "Explain caching."] ∧
    ∀ ls : List String, clean_questions ls = ls.filterMap cleanLineSpec := by
  constructor
  · decide
  · intro ls
    rw [clean_questions]
    exact List.filterMap_congr fun q _ => cleanLine_eq_spec q

/-- Claim C1: `generate_questions` returns at most 10 questions, equal to the
cleaned lines of the first (role) model response followed by the cleaned
lines of the second (resume) model response truncated to the first 10 with no
padding, and the resume prompt embeds only the first 3000 characters of the
resume text. -/
theorem c1_generate_questions_spec (model : String → String)
    (role resume_text : String) :
    (generate_questions model role resume_text).length ≤ 10 ∧
    generate_questions model role resume_text =
      (clean_questions ((model (role_prompt role)).splitOn "\n") ++
        clean_questions ((model (resume_prompt resume_text)).splitOn "\n")).take 10 ∧
    resume_prompt resume_text =
      "Resume:\n" ++ resume_text.take 3000 ++
        "\n\nGenerate 5 interview questions based on this resume." := by
  refine ⟨?_, rfl, rfl⟩
  show ((clean_questions ((model (role_prompt role)).splitOn "\n") ++
    clean_questions ((model (resume_prompt resume_text)).splitOn "\n")).take 10).length ≤ 10
  rw [List.length_take]
  exact Nat.min_le_left _ _

/-- Claim C8: the Restart Interview handler restores the uninitialized
session from any state: empty questions, answers, feedback, scores and
candidate details, `ready = false`, and the cursor back to its initial
value 0. -/
theorem c8_reset_restores_uninitialized (s : SessionState) :
    resetSession s = initSession ∧
    (resetSession s).questions = [] ∧ (resetSession s).user_answers = [] ∧
    (resetSession s).feedback = [] ∧ (resetSession s).scores = [] ∧
    (resetSession s).user_details = [] ∧ (resetSession s).ready = false ∧
    (resetSession s).question_index = 0 :=
  ⟨rfl, rfl, rfl, rfl, rfl, rfl, rfl, rfl⟩

/-- Claim C9: the results view computes `total = sum(scores)` and
`average = total / len(questions)` shown to one decimal place; with 10
questions each scored 7 the total is 70 and the average 7.0. -/
theorem c9_results_aggregation :
    (∀ s : SessionState,
      averageScore s = (totalScore s : ℚ) / (s.questions.length : ℚ)) ∧
    ∀ s : SessionState, s.questions.length = 10 → s.scores = List.replicate 10 7 →
      totalScore s = 70 ∧ averageScore s = 7 ∧ oneDecimal (averageScore s) = 7 := by
  refine ⟨fun s => rfl, fun s hq hs => ?_⟩
  have ht : totalScore s = 70 := by
    rw [totalScore, hs, List.sum_replicate]
    rfl
  have ha : averageScore s = 7 := by
    rw [averageScore, ht, hq]
    norm_num
  refine ⟨ht, ha, ?_⟩
  rw [ha, oneDecimal]
  have h70 : (7 : ℚ) * 10 = ((70 : ℤ) : ℚ) := by norm_num
  rw [h70, round_intCast]
  norm_num

/-- Witness for C9 at a concrete fully-scored ten-question session. -/
theorem c9_witness :
    totalScore ⟨10, List.replicate 10 "Q", List.replicate 10 "A",
      List.replicate 10 "F", List.replicate 10 7, [], true⟩ = 70 ∧
    averageScore ⟨10, List.replicate 10 "Q", List.replicate 10 "A",
      List.replicate 10 "F", List.replicate 10 7, [], true⟩ = 7 ∧
    oneDecimal (averageScore ⟨10, List.replicate 10 "Q", List.replicate 10 "A",
      List.replicate 10 "F", List.replicate 10 7, [], true⟩) = 7 :=
  c9_results_aggregation.2 _ (by decide) rfl

/-- Claim C5: initialization creates `answers` as a list of empty strings of
the same length as `questions` with the cursor at 0; an answer submission
preserves `len(answers) = len(questions)` (it mutates one element in place);
and the cursor never exceeds `len(questions)` because it is incremented only
while strictly below it. -/
theorem c5_session_invariants :
    (∀ (s : SessionState) (qs : List String) (name email experience role : String),
      (startInterview s qs name email experience role).user_answers =
        List.replicate qs.length "" ∧
      (startInterview s qs name email experience role).user_answers.length =
        (startInterview s qs name email experience role).questions.length ∧
      (startInterview s qs name email experience role).question_index = 0) ∧
    (∀ (s : SessionState) (a : String),
      s.user_answers.length = s.questions.length →
      (submitAnswer s a).1.user_answers.length =
        (submitAnswer s a).1.questions.length) ∧
    (∀ (s : SessionState) (a : String),
      s.question_index ≤ s.questions.length →
      (submitAnswer s a).1.question_index ≤ (submitAnswer s a).1.questions.length) := by
  refine ⟨fun s qs n e ex r =>
    ⟨rfl, by simp [startInterview, List.length_replicate], rfl⟩,
    fun s a h => ?_, fun s a h => ?_⟩
  · rw [submitAnswer]
    split
    · split
      · simp [List.length_set, h]
      · exact h
    · exact h
  · rw [submitAnswer]
    split
    · next hlt =>
      split
      · exact hlt
      · exact h
    · exact h

/-- Witness for C5 at a concrete one-question session. -/
theorem c5_witness :
    (submitAnswer ⟨0, ["Q one?"], [""], [], [], [], true⟩ "an answer").1.user_answers.length =
      (submitAnswer ⟨0, ["Q one?"], [""], [], [], [], true⟩ "an answer").1.questions.length ∧
    (submitAnswer ⟨0, ["Q one?"], [""], [], [], [], true⟩ "an answer").1.question_index ≤
      (submitAnswer ⟨0, ["Q one?"], [""], [], [], [], true⟩ "an answer").1.questions.length :=
  ⟨c5_session_invariants.2.1 _ _ (by decide),
   c5_session_invariants.2.2 _ _ (by decide)⟩

/-- Claim C6: in the collecting phase (cursor strictly below the question
count) a submission whose stripped text is empty is rejected with the
validation message and changes nothing, while a submission with non-empty
stripped text stores the stripped answer at the cursor and increments the
cursor by exactly one, leaving every other field unchanged. -/
theorem c6_submit_answer (s : SessionState) (answer : String)
    (h : s.question_index < s.questions.length) :
    (pyStrip answer = "" →
      submitAnswer s answer =
        (s, some "❗Please enter your answer before continuing.")) ∧
    (pyStrip answer ≠ "" →
      (submitAnswer s answer).1.user_answers =
        s.user_answers.set s.question_index (pyStrip answer) ∧
      (submitAnswer s answer).1.question_index = s.question_index + 1 ∧
      (submitAnswer s answer).1.questions = s.questions ∧
      (submitAnswer s answer).1.feedback = s.feedback ∧
      (submitAnswer s answer).1.scores = s.scores ∧
      (submitAnswer s answer).1.user_details = s.user_details ∧
      (submitAnswer s answer).1.ready = s.ready ∧
      (submitAnswer s answer).2 = none) := by
  constructor
  · intro he
    rw [submitAnswer, if_pos h, if_neg (by simp [he])]
  · intro hne
    rw [submitAnswer, if_pos h, if_pos hne]
    exact ⟨rfl, rfl, rfl, rfl, rfl, rfl, rfl, rfl⟩

/-- Witness for C6: an all-whitespace answer is rejected without a state
change, and a padded answer is stored stripped with the cursor advanced. -/
theorem c6_witness :
    submitAnswer ⟨0, ["Q one?"], [""], [], [], [], true⟩ "   " =
      (⟨0, ["Q one?"], [""], [], [], [], true⟩,
        some "❗Please enter your answer before continuing.") ∧
    (submitAnswer ⟨0, ["Q one?"], [""], [], [], [], true⟩ "  hello  ").1.user_answers =
      ([""] : List String).set 0 (pyStrip "  hello  ") ∧
    (submitAnswer ⟨0, ["Q one?"], [""], [], [], [], true⟩ "  hello  ").1.question_index = 0 + 1 :=
  ⟨(c6_submit_answer ⟨0, ["Q one?"], [""], [], [], [], true⟩ "   " (by decide)).1 (by decide),
   ((c6_submit_answer ⟨0, ["Q one?"], [""], [], [], [], true⟩ "  hello  " (by decide)).2
      (by decide)).1,
   (((c6_submit_answer ⟨0, ["Q one?"], [""], [], [], [], true⟩ "  hello  " (by decide)).2
      (by decide)).2).1⟩

lemma length_evaluate_fst (model : String → String) (qs as : List String) :
    (evaluate_answers model qs as).1.length = min qs.length as.length := by
  simp [evaluate_answers, List.length_zip]

lemma length_evaluate_snd (model : String → String) (qs as : List String) :
    (evaluate_answers model qs as).2.length = min qs.length as.length := by
  simp [evaluate_answers, List.length_zip]

/-- Claim C7: a run of the page invokes the evaluator only when `feedback` is
empty and no answer is the empty string, and two successive runs without a
reset invoke it at most once: once `feedback` is non-empty the stored results
are reused. -/
theorem c7_results_idempotent (model : String → String) (s : SessionState)
    (hlen : s.user_answers.length = s.questions.length)
    (s₁ : SessionState) (b₁ : Bool)
    (h₁ : viewResults model s = Except.ok (s₁, b₁)) :
    (b₁ = true → s.feedback = [] ∧ s.user_answers.count "" = 0) ∧
    ∀ (s₂ : SessionState) (b₂ : Bool),
      viewResults model s₁ = Except.ok (s₂, b₂) → ¬(b₁ = true ∧ b₂ = true) := by
  rw [viewResults] at h₁
  by_cases hr : s.ready = true
  · rw [if_pos hr] at h₁
    by_cases hq : s.questions.length = 0
    · rw [if_pos hq] at h₁
      simp at h₁
    · rw [if_neg hq] at h₁
      by_cases hg : s.feedback = [] ∧ s.user_answers.count "" = 0
      · rw [if_pos hg] at h₁
        simp only [Except.ok.injEq, Prod.mk.injEq] at h₁
        obtain ⟨hs₁, hb₁⟩ := h₁
        refine ⟨fun _ => hg, fun s₂ b₂ h₂ hcontra => ?_⟩
        have hfb : s₁.feedback ≠ [] := by
          rw [← hs₁]
          have hl : (evaluate_answers model s.questions s.user_answers).1.length =
              s.questions.length := by
            rw [length_evaluate_fst, hlen, Nat.min_self]
          intro hnil
          change (evaluate_answers model s.questions s.user_answers).1 = [] at hnil
          rw [hnil] at hl
          exact hq hl.symm
        rw [viewResults] at h₂
        have hr₁ : s₁.ready = true := by rw [← hs₁]; exact hr
        have hq₁ : ¬s₁.questions.length = 0 := by rw [← hs₁]; exact hq
        rw [if_pos hr₁, if_neg hq₁,
          if_neg (by intro hcon; exact hfb hcon.1)] at h₂
        simp only [Except.ok.injEq, Prod.mk.injEq] at h₂
        rw [← h₂.2] at hcontra
        exact Bool.false_ne_true hcontra.2
      · rw [if_neg hg] at h₁
        simp only [Except.ok.injEq, Prod.mk.injEq] at h₁
        refine ⟨fun hb => ?_, fun s₂ b₂ h₂ hcontra => ?_⟩
        · rw [← h₁.2] at hb
          exact absurd hb Bool.false_ne_true
        · rw [← h₁.2] at hcontra
          exact Bool.false_ne_true hcontra.1
  · rw [if_neg hr] at h₁
    simp only [Except.ok.injEq, Prod.mk.injEq] at h₁
    refine ⟨fun hb => ?_, fun s₂ b₂ h₂ hcontra => ?_⟩
    · rw [← h₁.2] at hb
      exact absurd hb Bool.false_ne_true
    · rw [← h₁.2] at hcontra
      exact Bool.false_ne_true hcontra.1

/-- Witness for C7 at a concrete fully-answered one-question session. -/
theorem c7_witness :
    (⟨1, ["Q one?"], ["A"], [], [], [], true⟩ : SessionState).feedback = [] ∧
    (⟨1, ["Q one?"], ["A"], [], [], [], true⟩ : SessionState).user_answers.count "" = 0 :=
  (c7_results_idempotent (fun _ => "Feedback: fine\nScore: 5/10")
    ⟨1, ["Q one?"], ["A"], [], [], [], true⟩ (by decide)
    ⟨1, ["Q one?"], ["A"], ["fine"], [5], [], true⟩ true rfl).1 rfl

lemma getElem?_zip_map {α β γ : Type} (g : α × β → γ) (l₁ : List α) (l₂ : List β)
    (i : Nat) :
    ((l₁.zip l₂).map g)[i]? =
      (l₁[i]?).bind fun a => (l₂[i]?).map fun b => g (a, b) := by
  induction l₁ generalizing l₂ i with
  | nil => simp
  | cons a as ih =>
    cases l₂ with
    | nil => simp
    | cons b bs =>
      cases i with
      | zero => simp [List.zip_cons_cons]
      | succ n => simp [List.zip_cons_cons, ih]

lemma parse_snd (r : String) : (parse_eval_response r).2 = (scoreSearch r).getD 0 := by
  rw [parse_eval_response]
  cases h : scoreSearch r <;> simp [h]

/-- Claim C3: for equal-length question and answer lists, `evaluate_answers`
returns a feedback list and a score list of the same length as the questions
and in input order; per pair, the feedback is the (trimmed) text after the
first `Feedback:` match with the fixed placeholder as default, and the score
is the first integer following `Score:` with default 0; the response
"Feedback: Good answer.\nScore: 8/10" parses to ("Good answer.", 8). -/
theorem c3_evaluate_answers_spec (model : String → String) (qs as : List String)
    (h : qs.length = as.length) :
    (evaluate_answers model qs as).1.length = qs.length ∧
    (evaluate_answers model qs as).2.length = qs.length ∧
    (∀ i : Nat, (evaluate_answers model qs as).1[i]? =
      (qs[i]?).bind fun q => (as[i]?).map fun a =>
        (parse_eval_response (model (eval_prompt q a))).1) ∧
    (∀ i : Nat, (evaluate_answers model qs as).2[i]? =
      (qs[i]?).bind fun q => (as[i]?).map fun a =>
        (parse_eval_response (model (eval_prompt q a))).2) ∧
    parse_eval_response "Feedback: Good answer.\nScore: 8/10" =
      ("Good answer.", 8) ∧
    (∀ r : String, feedbackSearch r = none →
      (parse_eval_response r).1 = "No feedback provided.") ∧
    (∀ r : String, scoreSearch r = none → (parse_eval_response r).2 = 0) := by
  refine ⟨?_, ?_, ?_, ?_, by decide, ?_, ?_⟩
  · rw [length_evaluate_fst, h, Nat.min_self]
  · rw [length_evaluate_snd, h, Nat.min_self]
  · intro i
    show (((qs.zip as).map
      (fun p => parse_eval_response (model (eval_prompt p.1 p.2)))).map Prod.fst)[i]? = _
    rw [List.getElem?_map, getElem?_zip_map]
    cases qs[i]? <;> cases as[i]? <;> simp
  · intro i
    show (((qs.zip as).map
      (fun p => parse_eval_response (model (eval_prompt p.1 p.2)))).map Prod.snd)[i]? = _
    rw [List.getElem?_map, getElem?_zip_map]
    cases qs[i]? <;> cases as[i]? <;> simp
  · intro r hr
    simp [parse_eval_response, hr]
  · intro r hr
    simp [parse_eval_response, hr]

/-- Witness for C3 at a single concrete pair with the format-following
response from the spec scenario. -/
theorem c3_witness :
    (evaluate_answers (fun _ => "Feedback: Good answer.\nScore: 8/10")
      ["Q"] ["A"]).1.length = 1 ∧
    (evaluate_answers (fun _ => "Feedback: Good answer.\nScore: 8/10")
      ["Q"] ["A"]).2.length = 1 :=
  ⟨(c3_evaluate_answers_spec _ ["Q"] ["A"] rfl).1,
   (c3_evaluate_answers_spec (fun _ => "Feedback: Good answer.\nScore: 8/10")
     ["Q"] ["A"] rfl).2.1⟩

/-- Counterexample to claim C4 as stated: a model response announcing a score
above 10 is stored unclamped, so not every possible response text yields
scores in [0,10]. -/
theorem c4_counterexample :
    (evaluate_answers (fun _ => "Score: 15") ["Q"] ["A"]).2 = [15] ∧
    ¬(∀ n ∈ (evaluate_answers (fun _ => "Score: 15") ["Q"] ["A"]).2, n ≤ 10) := by
  decide

/-- Claim C4 (amended): every stored score is a natural number, and every
score lies in [0,10] provided each parsed `Score:` value is at most 10 (as
when the model follows the requested `<score>/10` format); a response with no
parsable score contributes the in-range default 0.  No upper clamp is
applied, so this fails for responses stating a larger integer. -/
theorem c4_scores_range (model : String → String) (qs as : List String)
    (h : ∀ p ∈ qs.zip as, (scoreSearch (model (eval_prompt p.1 p.2))).getD 0 ≤ 10) :
    ∀ n ∈ (evaluate_answers model qs as).2, n ≤ 10 := by
  intro n hn
  simp only [evaluate_answers, List.mem_map] at hn
  obtain ⟨x, ⟨p, hp, hx⟩, hxn⟩ := hn
  rw [← hxn, ← hx, parse_snd]
  exact h p hp

/-- Witness for C4 (amended) at a concrete format-following response. -/
theorem c4_witness :
    9 ∈ (evaluate_answers (fun _ => "Feedback: ok\nScore: 9/10") ["Q"] ["A"]).2 ∧
    9 ≤ 10 :=
  ⟨by decide,
   c4_scores_range (fun _ => "Feedback: ok\nScore: 9/10") ["Q"] ["A"] (by decide)
     9 (by decide)⟩

end ResumeBot
